import Mathlib

/-!
Shallow embedding of the DCGM safe-wrapper layer (`src/dcgm_bindings/mod.rs`).

The wrapper is glue over a vendor native library.  The native library itself
is external: it is modelled as an oracle (`DcgmLib`), a record of pure
functions giving, for each native entry point, the status code and output
data that the call would produce.  Each wrapper operation is translated to a
Lean function that takes the oracle and returns the operation's result
together with the list of native calls it issued, so that "the native
function is never invoked" becomes a statement about the trace.

Machine integers are modelled as `Nat` / `Int`, with an explicit `% 2 ^ 64`
where a `u64` output parameter is read back from the native side.  Code that
can fail returns `RResult`, whose `aborted` constructor models a Rust
process abort (an `unwrap` of a failed value or an out-of-bounds index).
-/

/-- Native status code for success.  Modelled from the spec: the generated
`bindings` module is not under `src/`; the spec fixes the vendor ABI, in
which the success status is 0. -/
def DCGM_ST_OK : Int := 0

/-- Native status code for "not supported".  Modelled from the spec: the
`bindings` module is not under `src/`; the vendor ABI value is -6. -/
def DCGM_ST_NOT_SUPPORTED : Int := -6

/-- Maximum device count, size of the fixed native output arrays.  Modelled
from the spec: the `bindings` module is not under `src/`; the vendor ABI
value is 32. -/
def DCGM_MAX_NUM_DEVICES : Nat := 32

/-- Automatic operation mode passed to `dcgmStartEmbedded`.  Modelled from
the spec: the `bindings` module is not under `src/`; the vendor ABI value
is 1. -/
def DCGM_OPERATION_MODE_AUTO : Nat := 1

/-- Error type of the wrapper: a message string (`DCGMError` in the source). -/
structure DCGMError where
  message : String
deriving DecidableEq

/-- Connection mode (`Mode` in the source). -/
inductive Mode where
  | Embedded
  | Standalone
  | StartHostengine
deriving DecidableEq

/-- Result of a Rust function in the embedding: a successful value, a
returned `DCGMError`, or a process abort (models a failing `unwrap` or an
out-of-bounds array index, which in Rust do not return at all). -/
inductive RResult (α : Type) where
  | ok : α → RResult α
  | err : DCGMError → RResult α
  | aborted : RResult α
deriving DecidableEq

/-- The connection descriptor `dcgmConnectV2Params_t`.  Field layout is the
vendor ABI (four unsigned 32-bit fields). -/
structure dcgmConnectV2Params where
  version : Nat
  timeoutMs : Nat
  persistAfterDisconnect : Nat
  addressIsUnixSocket : Nat
deriving DecidableEq

/-- Size in bytes of `dcgmConnectV2Params_t`.  Modelled from the spec: the
`bindings` module is not under `src/`; four 4-byte fields give 16. -/
def sizeof_dcgmConnectV2Params : Nat := 16

/-- One entry of the `gpuPaths` array of `dcgmDeviceTopology_t`. -/
structure dcgmDeviceTopologyPath where
  gpuId : Nat
  path : Nat
deriving DecidableEq

/-- The `dcgmDeviceTopology_t` struct as populated by the native call: a
reported count and the fixed-size `gpuPaths` array, modelled as a function
from index (reads beyond `DCGM_MAX_NUM_DEVICES` are handled at the read
site, where Rust indexing would abort). -/
structure dcgmDeviceTopology where
  numGpus : Nat
  gpuPaths : Nat → dcgmDeviceTopologyPath

/-- The `dcgmDeviceAttributes_t` struct; the wrapper only threads it
through, so only the version tag is kept. -/
structure dcgmDeviceAttributes where
  version : Nat
deriving DecidableEq

/-- A native call issued by the wrapper, recorded in the trace. -/
inductive NativeCall where
  | dcgmInitCall
  | dcgmStartEmbeddedCall (opMode : Nat)
  | dcgmConnectCall (addr : String) (params : dcgmConnectV2Params)
  | dcgmStopEmbeddedCall (handle : Nat)
  | dcgmDisconnectCall (handle : Nat)
  | dcgmShutdownCall
  | dcgmWatchFieldsCall (handle groupId fieldGroupId : Nat) (updateFreq : Int)
      (maxKeepAge : Nat) (maxKeepSamples : Int)
  | dcgmUpdateAllFieldsCall (handle : Nat) (waitForUpdate : Nat)
  | dcgmSelectGpusCall (handle : Nat) (inputMask : Nat) (numGpus : Nat)
  | dcgmGetDeviceTopologyCall (handle : Nat) (gpuId : Nat)
  | dcgmGetDeviceAttributesCall (handle : Nat) (gpuId : Nat)
deriving DecidableEq

/-- The native library, modelled as an oracle: for each native entry point,
the status code (and output data) the call would produce.  `errorString`
returns `none` when the native lookup would return a null pointer.  The
`maxKeepAge` argument is an `f64` the wrapper only passes through; it is
modelled opaquely by its bit pattern. -/
structure DcgmLib where
  initResult : Int
  errorString : Int → Option String
  startEmbeddedResult : Nat → Int × Nat
  stopEmbeddedResult : Nat → Int
  shutdownResult : Int
  connectResult : String → dcgmConnectV2Params → Int × Nat
  disconnectResult : Nat → Int
  watchFieldsResult : Nat → Nat → Nat → Int → Nat → Int → Int
  updateAllFieldsResult : Nat → Nat → Int
  selectGpusResult : Nat → Nat → Nat → Int × Nat
  getDeviceTopologyResult : Nat → Nat → Int × dcgmDeviceTopology
  getDeviceAttributesResult : Nat → Nat → Int × dcgmDeviceAttributes

/-- The session object `DcgmLibSafe`: the connection mode fixed at
construction and the connection handle.  The source's `dcgm` field (the
static reference to the loaded library) is passed as an explicit oracle
parameter to every operation instead. -/
structure DcgmLibSafe where
  stop_mode : Mode
  handle : Nat
deriving DecidableEq

/-- `get_error_msg`: ask the native library for a message string for a
status code, falling back to a generic message when the lookup returns
null. -/
def get_error_msg (lib : DcgmLib) (code : Int) : String :=
  match lib.errorString code with
  | none => "Unknown DCGM error " ++ toString code
  | some s => s

/-- The status-translation pattern repeated at every native call site of the
source: the success status becomes `Ok(())`, any other status becomes a
`DCGMError` built from `get_error_msg`. -/
def status_to_result (lib : DcgmLib) (code : Int) : RResult Unit :=
  if code = DCGM_ST_OK then .ok () else .err ⟨get_error_msg lib code⟩

/-- `make_version1` from the source: struct size tagged with revision 1 in
the top byte (u32 arithmetic; no overflow for real struct sizes). -/
def make_version1 (struct_type : Nat) : Nat :=
  (struct_type ||| (1 <<< 24)) % 2 ^ 32

/-- `make_version2` from the source. -/
def make_version2 (struct_type : Nat) : Nat :=
  (struct_type ||| (2 <<< 24)) % 2 ^ 32

/-- `make_version3` from the source. -/
def make_version3 (struct_type : Nat) : Nat :=
  (struct_type ||| (3 <<< 24)) % 2 ^ 32

/-- One step of the bitmask-building loop of `selectGpusByTopology`: an
already-raised error is returned unchanged (the Rust loop has already
returned), otherwise the id is range-checked and its bit OR-ed in. -/
def encodeStep (acc : RResult Nat) (gpu : Nat) : RResult Nat :=
  match acc with
  | .ok m => if 63 < gpu then .err ⟨"gpu value out of bounds"⟩ else .ok (m ||| (1 <<< gpu))
  | r => r

/-- The bitmask-building loop of `selectGpusByTopology`: starting from a
zero `u64` mask, fold `encodeStep` over the input ids. -/
def encode_gpu_bitmask (gpuIds : List Nat) : RResult Nat :=
  gpuIds.foldl encodeStep (.ok 0)

/-- The pure OR accumulation underlying `encode_gpu_bitmask` on the
error-free path. -/
def orBits (m : Nat) (gpuIds : List Nat) : Nat :=
  gpuIds.foldl (fun a g => a ||| (1 <<< g)) m

/-- The decode loop of `selectGpusByTopology`: scan set bits low-to-high,
halving the mask each iteration.  The source's `while` loop runs on a `u64`
mask, so it performs at most 64 iterations; the fuel argument makes that
bound explicit (64 fuel is exact for any mask below `2 ^ 64`). -/
def decodeLoop : Nat → Nat → Nat → List Nat
  | 0, _, _ => []
  | fuel + 1, mask, index =>
    if mask = 0 then []
    else (if mask % 2 = 1 then [index] else []) ++ decodeLoop fuel (mask / 2) (index + 1)

/-- `selectGpusByTopology`: encode the id set as a `u64` bitmask (failing
when an id exceeds 63), ask the native library for a topologically optimal
subset, and decode the returned `u64` mask by scanning set bits
low-to-high. -/
def DcgmLibSafe.selectGpusByTopology (lib : DcgmLib) (handle : Nat)
    (gpuIds : List Nat) (numGpus : Nat) : RResult (List Nat) × List NativeCall :=
  match encode_gpu_bitmask gpuIds with
  | .err e => (.err e, [])
  | .aborted => (.aborted, [])
  | .ok gpuBitmask =>
    let r := lib.selectGpusResult handle gpuBitmask numGpus
    let outputBitmask := r.2 % 2 ^ 64
    if r.1 = DCGM_ST_OK then
      (.ok (decodeLoop 64 outputBitmask 0), [.dcgmSelectGpusCall handle gpuBitmask numGpus])
    else
      (.err ⟨get_error_msg lib r.1⟩, [.dcgmSelectGpusCall handle gpuBitmask numGpus])

/-- Model of Rust's `str::parse::<u32>`: an optional leading plus sign, then
at least one ASCII digit, with the value required to fit in 32 bits;
anything else fails.  (The standard library is external to the repository;
this models its documented behaviour.) -/
def parseU32 (s : String) : Option Nat :=
  let cs := s.toList
  let cs := if cs.head? = some '+' then cs.tail else cs
  if cs.isEmpty then none
  else if cs.all Char.isDigit then
    let v := cs.foldl (fun a c => a * 10 + (c.toNat - 48)) 0
    if v < 2 ^ 32 then some v else none
  else none

/-- Model of `CString::new`: fails exactly when the string contains an
interior NUL byte. -/
def cstring_new (s : String) : Option String :=
  if s.toList.contains (Char.ofNat 0) then none else some s

/-- `DcgmLibSafe::init`: the `dcgmInit` native call, status-checked. -/
def DcgmLibSafe.initCall (lib : DcgmLib) : RResult Unit × List NativeCall :=
  (status_to_result lib lib.initResult, [.dcgmInitCall])

/-- `startEmbedded`: start the in-process engine in automatic mode; on
success the handle written through the out parameter is returned. -/
def DcgmLibSafe.startEmbedded (lib : DcgmLib) : RResult Nat × List NativeCall :=
  let r := lib.startEmbeddedResult DCGM_OPERATION_MODE_AUTO
  (if r.1 = DCGM_ST_OK then .ok r.2 else .err ⟨get_error_msg lib r.1⟩,
   [.dcgmStartEmbeddedCall DCGM_OPERATION_MODE_AUTO])

/-- `connectStandalone`: validate the argument count, build the connection
descriptor (parsing the persistence flag when a third argument is present,
then the socket-type flag — each `unwrap`ed, so a parse failure aborts),
convert the address to a C string (`unwrap`ed likewise), and issue the
connect call. -/
def DcgmLibSafe.connectStandalone (lib : DcgmLib) (args : List String) :
    RResult Nat × List NativeCall :=
  if args.length < 2 then
    (.err ⟨"missing dcgm address and / or isUnixSocket"⟩, [])
  else
    match (if args.length = 3 then parseU32 (args.getD 2 "") else some 0) with
    | none => (.aborted, [])
    | some persist =>
      match parseU32 (args.getD 1 "") with
      | none => (.aborted, [])
      | some isUnix =>
        match cstring_new (args.getD 0 "") with
        | none => (.aborted, [])
        | some addr =>
          let connect_params : dcgmConnectV2Params :=
            { version := make_version2 sizeof_dcgmConnectV2Params
              timeoutMs := 3000000
              persistAfterDisconnect := persist
              addressIsUnixSocket := isUnix }
          let r := lib.connectResult addr connect_params
          (if r.1 = DCGM_ST_OK then .ok r.2 else .err ⟨get_error_msg lib r.1⟩,
           [.dcgmConnectCall addr connect_params])

/-- `connectToDcgm`: dispatch on the connection mode. -/
def DcgmLibSafe.connectToDcgm (lib : DcgmLib) (m : Mode) (args : List String) :
    RResult Nat × List NativeCall :=
  match m with
  | .Embedded => DcgmLibSafe.startEmbedded lib
  | .Standalone => DcgmLibSafe.connectStandalone lib args
  | .StartHostengine => (.err ⟨"Not implemented"⟩, [])

/-- `DcgmLibSafe::new`: with the process-wide library load result given
explicitly, a failed load replays the load error; otherwise the global init
call runs first, then the mode dispatch connects, and on success the
session (mode fixed at construction, handle from the connect) is
returned. -/
def DcgmLibSafe.new (libLoad : Except DCGMError DcgmLib) (m : Mode)
    (args : List String) : RResult DcgmLibSafe × List NativeCall :=
  match libLoad with
  | .error e => (.err e, [])
  | .ok lib =>
    let r1 := DcgmLibSafe.initCall lib
    match r1.1 with
    | .ok _ =>
      let r2 := DcgmLibSafe.connectToDcgm lib m args
      match r2.1 with
      | .ok h => (.ok ⟨m, h⟩, r1.2 ++ r2.2)
      | .err e => (.err e, r1.2 ++ r2.2)
      | .aborted => (.aborted, r1.2 ++ r2.2)
    | .err e => (.err e, r1.2)
    | .aborted => (.aborted, r1.2)

/-- `stopEmbedded`: stop the embedded engine; only if that succeeds, run the
global shutdown call, whose status decides the result. -/
def DcgmLibSafe.stopEmbedded (lib : DcgmLib) (handle : Nat) :
    RResult Unit × List NativeCall :=
  if lib.stopEmbeddedResult handle = DCGM_ST_OK then
    (status_to_result lib lib.shutdownResult,
     [.dcgmStopEmbeddedCall handle, .dcgmShutdownCall])
  else
    (.err ⟨get_error_msg lib (lib.stopEmbeddedResult handle)⟩,
     [.dcgmStopEmbeddedCall handle])

/-- `disconnectStandalone`: disconnect; only if that succeeds, run the
global shutdown call, whose status decides the result. -/
def DcgmLibSafe.disconnectStandalone (lib : DcgmLib) (handle : Nat) :
    RResult Unit × List NativeCall :=
  if lib.disconnectResult handle = DCGM_ST_OK then
    (status_to_result lib lib.shutdownResult,
     [.dcgmDisconnectCall handle, .dcgmShutdownCall])
  else
    (.err ⟨get_error_msg lib (lib.disconnectResult handle)⟩,
     [.dcgmDisconnectCall handle])

/-- `shutdown`: dispatch on the mode fixed at construction. -/
def DcgmLibSafe.shutdown (lib : DcgmLib) (self : DcgmLibSafe) :
    RResult Unit × List NativeCall :=
  match self.stop_mode with
  | .Embedded => DcgmLibSafe.stopEmbedded lib self.handle
  | .Standalone => DcgmLibSafe.disconnectStandalone lib self.handle
  | .StartHostengine => (.err ⟨"Not implemented"⟩, [])

/-- `updateAllFields`: the synchronous update-all-fields call (wait flag
fixed to 1), status-checked. -/
def DcgmLibSafe.updateAllFields (lib : DcgmLib) (handle : Nat) :
    RResult Unit × List NativeCall :=
  (status_to_result lib (lib.updateAllFieldsResult handle 1),
   [.dcgmUpdateAllFieldsCall handle 1])

/-- `watchFields`: register the watch with the native library; only if
registration succeeds, immediately force the synchronous update-all-fields
call, whose result is the operation's result. -/
def DcgmLibSafe.watchFields (lib : DcgmLib) (handle fieldGroupId groupId : Nat)
    (updateFreq : Int) (maxKeepAge : Nat) (maxKeepSamples : Int) :
    RResult Unit × List NativeCall :=
  let wst := lib.watchFieldsResult handle groupId fieldGroupId updateFreq maxKeepAge maxKeepSamples
  if wst = DCGM_ST_OK then
    let r := DcgmLibSafe.updateAllFields lib handle
    (r.1, .dcgmWatchFieldsCall handle groupId fieldGroupId updateFreq maxKeepAge maxKeepSamples :: r.2)
  else
    (.err ⟨get_error_msg lib wst⟩,
     [.dcgmWatchFieldsCall handle groupId fieldGroupId updateFreq maxKeepAge maxKeepSamples])

/-- `getDeviceAttributes`: versioned struct fetch, status-checked. -/
def DcgmLibSafe.getDeviceAttributes (lib : DcgmLib) (handle gpuId : Nat) :
    RResult dcgmDeviceAttributes × List NativeCall :=
  let r := lib.getDeviceAttributesResult handle gpuId
  (if r.1 = DCGM_ST_OK then .ok r.2 else .err ⟨get_error_msg lib r.1⟩,
   [.dcgmGetDeviceAttributesCall handle gpuId])

/-- A per-peer link record (`P2PLink` in the source); the `bus_id` is the
hard-coded placeholder string of the source. -/
structure P2PLink where
  gpu : Nat
  bus_id : String
  link : Nat
deriving DecidableEq

/-- `getDeviceTopology`: fetch the topology struct.  The "not supported"
status is the valid empty case; any other non-success status is an error.
On success the attributes fetch runs next and is `unwrap`ed (a failure
aborts), then one link record per reported peer GPU is built from the
`gpuPaths` array (an index at or beyond the fixed array size would
abort). -/
def DcgmLibSafe.getDeviceTopology (lib : DcgmLib) (handle gpuId : Nat) :
    RResult (List P2PLink) × List NativeCall :=
  let r := lib.getDeviceTopologyResult handle gpuId
  let topology := r.2
  if r.1 = DCGM_ST_OK then
    let ar := DcgmLibSafe.getDeviceAttributes lib handle gpuId
    let trace := .dcgmGetDeviceTopologyCall handle gpuId :: ar.2
    match ar.1 with
    | .ok _device =>
      if topology.numGpus ≤ DCGM_MAX_NUM_DEVICES then
        (.ok ((List.range topology.numGpus).map fun i =>
          { gpu := (topology.gpuPaths i).gpuId
            bus_id := "test"
            link := (topology.gpuPaths i).path }), trace)
      else (.aborted, trace)
    | _ => (.aborted, trace)
  else if r.1 = DCGM_ST_NOT_SUPPORTED then
    (.ok [], [.dcgmGetDeviceTopologyCall handle gpuId])
  else
    (.err ⟨get_error_msg lib r.1⟩, [.dcgmGetDeviceTopologyCall handle gpuId])

/-- PCIe topology class constant.  Modelled from the spec: the `bindings`
module is not under `src/`; the vendor ABI packs the PCIe classes into the
low byte as the flag values 0, 1, 2, 4, 8, 16, 32. -/
def DCGM_TOPOLOGY_UNINITIALIZED : Nat := 0

/-- PCIe class: same board.  Modelled from the spec (vendor ABI value). -/
def DCGM_TOPOLOGY_BOARD : Nat := 1

/-- PCIe class: single PCIe bridge.  Modelled from the spec (vendor ABI value). -/
def DCGM_TOPOLOGY_SINGLE : Nat := 2

/-- PCIe class: multiple PCIe bridges.  Modelled from the spec (vendor ABI value). -/
def DCGM_TOPOLOGY_MULTIPLE : Nat := 4

/-- PCIe class: host bridge.  Modelled from the spec (vendor ABI value). -/
def DCGM_TOPOLOGY_HOSTBRIDGE : Nat := 8

/-- PCIe class: same NUMA node.  Modelled from the spec (vendor ABI value). -/
def DCGM_TOPOLOGY_CPU : Nat := 16

/-- PCIe class: across the system.  Modelled from the spec (vendor ABI value). -/
def DCGM_TOPOLOGY_SYSTEM : Nat := 32

/-- NVLink class constants.  Modelled from the spec: the `bindings` module
is not under `src/`; the vendor ABI assigns NVLink class k the single bit
`2 ^ (k + 7)`, all above the low byte. -/
def DCGM_TOPOLOGY_NVLINK (k : Nat) : Nat := 2 ^ (k + 7)

/-- `p2p_pcie_connectivity_to_string`: mask to the low byte, then map the
defined PCIe class constants to their labels, with "ERR" as the catch-all. -/
def p2p_pcie_connectivity_to_string (link : Nat) : String :=
  let l := link &&& 0xFF
  if l = DCGM_TOPOLOGY_UNINITIALIZED then "N/A"
  else if l = DCGM_TOPOLOGY_BOARD then "PSB"
  else if l = DCGM_TOPOLOGY_SINGLE then "PIX"
  else if l = DCGM_TOPOLOGY_MULTIPLE then "PXB"
  else if l = DCGM_TOPOLOGY_HOSTBRIDGE then "PHB"
  else if l = DCGM_TOPOLOGY_CPU then "NODE"
  else if l = DCGM_TOPOLOGY_SYSTEM then "SYS"
  else "ERR"

/-- `p2p_nvlink_connectivity_to_string`: mask away the low byte, then map
the defined NVLink class constants 1..18 to their labels, with "ERR" as the
catch-all. -/
def p2p_nvlink_connectivity_to_string (link : Nat) : String :=
  let l := link &&& 0xFFFFFF00
  if l = DCGM_TOPOLOGY_NVLINK 1 then "NV1"
  else if l = DCGM_TOPOLOGY_NVLINK 2 then "NV2"
  else if l = DCGM_TOPOLOGY_NVLINK 3 then "NV3"
  else if l = DCGM_TOPOLOGY_NVLINK 4 then "NV4"
  else if l = DCGM_TOPOLOGY_NVLINK 5 then "NV5"
  else if l = DCGM_TOPOLOGY_NVLINK 6 then "NV6"
  else if l = DCGM_TOPOLOGY_NVLINK 7 then "NV7"
  else if l = DCGM_TOPOLOGY_NVLINK 8 then "NV8"
  else if l = DCGM_TOPOLOGY_NVLINK 9 then "NV9"
  else if l = DCGM_TOPOLOGY_NVLINK 10 then "NV10"
  else if l = DCGM_TOPOLOGY_NVLINK 11 then "NV11"
  else if l = DCGM_TOPOLOGY_NVLINK 12 then "NV12"
  else if l = DCGM_TOPOLOGY_NVLINK 13 then "NV13"
  else if l = DCGM_TOPOLOGY_NVLINK 14 then "NV14"
  else if l = DCGM_TOPOLOGY_NVLINK 15 then "NV15"
  else if l = DCGM_TOPOLOGY_NVLINK 16 then "NV16"
  else if l = DCGM_TOPOLOGY_NVLINK 17 then "NV17"
  else if l = DCGM_TOPOLOGY_NVLINK 18 then "NV18"
  else "ERR"

/-- The defined PCIe class constants paired with their labels. -/
def pcieClasses : List (Nat × String) :=
  [(DCGM_TOPOLOGY_UNINITIALIZED, "N/A"), (DCGM_TOPOLOGY_BOARD, "PSB"),
   (DCGM_TOPOLOGY_SINGLE, "PIX"), (DCGM_TOPOLOGY_MULTIPLE, "PXB"),
   (DCGM_TOPOLOGY_HOSTBRIDGE, "PHB"), (DCGM_TOPOLOGY_CPU, "NODE"),
   (DCGM_TOPOLOGY_SYSTEM, "SYS")]

/-- The defined NVLink class constants paired with their labels. -/
def nvlinkClasses : List (Nat × String) :=
  [(DCGM_TOPOLOGY_NVLINK 1, "NV1"), (DCGM_TOPOLOGY_NVLINK 2, "NV2"),
   (DCGM_TOPOLOGY_NVLINK 3, "NV3"), (DCGM_TOPOLOGY_NVLINK 4, "NV4"),
   (DCGM_TOPOLOGY_NVLINK 5, "NV5"), (DCGM_TOPOLOGY_NVLINK 6, "NV6"),
   (DCGM_TOPOLOGY_NVLINK 7, "NV7"), (DCGM_TOPOLOGY_NVLINK 8, "NV8"),
   (DCGM_TOPOLOGY_NVLINK 9, "NV9"), (DCGM_TOPOLOGY_NVLINK 10, "NV10"),
   (DCGM_TOPOLOGY_NVLINK 11, "NV11"), (DCGM_TOPOLOGY_NVLINK 12, "NV12"),
   (DCGM_TOPOLOGY_NVLINK 13, "NV13"), (DCGM_TOPOLOGY_NVLINK 14, "NV14"),
   (DCGM_TOPOLOGY_NVLINK 15, "NV15"), (DCGM_TOPOLOGY_NVLINK 16, "NV16"),
   (DCGM_TOPOLOGY_NVLINK 17, "NV17"), (DCGM_TOPOLOGY_NVLINK 18, "NV18")]

/-- A concrete oracle for evaluation: every native call succeeds, the
error-string lookup always returns null, and the topology-selection call
echoes the input mask back. -/
def dcgmLibZero : DcgmLib where
  initResult := 0
  errorString := fun _ => none
  startEmbeddedResult := fun _ => (0, 7)
  stopEmbeddedResult := fun _ => 0
  shutdownResult := 0
  connectResult := fun _ _ => (0, 9)
  disconnectResult := fun _ => 0
  watchFieldsResult := fun _ _ _ _ _ _ => 0
  updateAllFieldsResult := fun _ _ => 0
  selectGpusResult := fun _ m _ => (0, m)
  getDeviceTopologyResult := fun _ _ => (0, ⟨0, fun _ => ⟨0, 0⟩⟩)
  getDeviceAttributesResult := fun _ _ => (0, ⟨0⟩)

/-- A concrete oracle whose topology query reports "not supported". -/
def dcgmLibTopoNS : DcgmLib :=
  { dcgmLibZero with getDeviceTopologyResult := fun _ _ => (-6, ⟨0, fun _ => ⟨0, 0⟩⟩) }

/-- A concrete oracle whose topology query succeeds with two peer GPUs. -/
def dcgmLibTopoOk : DcgmLib :=
  { dcgmLibZero with getDeviceTopologyResult := fun _ _ => (0, ⟨2, fun i => ⟨i, 1⟩⟩) }

/-- A concrete oracle whose topology query succeeds but whose attributes
query fails. -/
def dcgmLibAttrFail : DcgmLib :=
  { dcgmLibZero with
    getDeviceTopologyResult := fun _ _ => (0, ⟨1, fun _ => ⟨2, 1⟩⟩)
    getDeviceAttributesResult := fun _ _ => (-7, ⟨0⟩) }

/-- A concrete oracle whose watch registration fails with a status that has
a native message string. -/
def dcgmLibWatchFail : DcgmLib :=
  { dcgmLibZero with
    watchFieldsResult := fun _ _ _ _ _ _ => 5
    errorString := fun c => if c = 5 then some "watch failed" else none }

/-- A concrete oracle with a native message string for one status code. -/
def dcgmLibMsg : DcgmLib :=
  { dcgmLibZero with errorString := fun c => if c = 5 then some "boom" else none }

theorem foldl_encodeStep_err (l : List Nat) (e : DCGMError) :
    l.foldl encodeStep (.err e) = .err e := by
  induction l with
  | nil => rfl
  | cons g t ih => simpa [encodeStep] using ih

theorem foldl_encodeStep_ok (l : List Nat) (m : Nat) (h : ∀ g ∈ l, g ≤ 63) :
    l.foldl encodeStep (.ok m) = .ok (orBits m l) := by
  induction l generalizing m with
  | nil => rfl
  | cons g t ih =>
    have hg : ¬ 63 < g := by
      have := h g (by simp)
      omega
    simp only [List.foldl, encodeStep, hg, if_false, orBits]
    exact ih _ (fun x hx => h x (by simp [hx]))

theorem foldl_encodeStep_mem_gt (l : List Nat) (g : Nat) (hg : g ∈ l) (h63 : 63 < g) :
    ∀ m, l.foldl encodeStep (.ok m) = .err ⟨"gpu value out of bounds"⟩ := by
  induction l with
  | nil => cases hg
  | cons a t ih =>
    intro m
    by_cases ha : 63 < a
    · simp only [List.foldl, encodeStep, ha, if_true]
      exact foldl_encodeStep_err t _
    · rcases List.mem_cons.mp hg with rfl | hmem
      · omega
      · simp only [List.foldl, encodeStep, ha, if_false]
        exact ih hmem _

theorem orBits_testBit (l : List Nat) (m k : Nat) :
    Nat.testBit (orBits m l) k = true ↔ Nat.testBit m k = true ∨ k ∈ l := by
  induction l generalizing m with
  | nil => simp [orBits]
  | cons g t ih =>
    simp only [orBits, List.foldl] at ih ⊢
    rw [ih]
    simp only [Nat.testBit_or, Nat.one_shiftLeft, Nat.testBit_two_pow, Bool.or_eq_true,
      decide_eq_true_eq, List.mem_cons]
    constructor
    · rintro ((hm | rfl) | ht)
      · exact Or.inl hm
      · exact Or.inr (Or.inl rfl)
      · exact Or.inr (Or.inr ht)
    · rintro (hm | rfl | ht)
      · exact Or.inl (Or.inl hm)
      · exact Or.inl (Or.inr rfl)
      · exact Or.inr ht

theorem orBits_lt (l : List Nat) (m : Nat) (h : ∀ g ∈ l, g ≤ 63) (hm : m < 2 ^ 64) :
    orBits m l < 2 ^ 64 := by
  induction l generalizing m with
  | nil => simpa [orBits] using hm
  | cons g t ih =>
    simp only [orBits, List.foldl] at ih ⊢
    refine ih _ (fun x hx => h x (by simp [hx])) ?_
    apply Nat.or_lt_two_pow hm
    rw [Nat.one_shiftLeft]
    have hg : g ≤ 63 := h g (by simp)
    calc 2 ^ g ≤ 2 ^ 63 := Nat.pow_le_pow_right (by omega) hg
    _ < 2 ^ 64 := by norm_num

theorem decodeLoop_zero_mask (fuel i : Nat) : decodeLoop fuel 0 i = [] := by
  cases fuel <;> simp [decodeLoop]

theorem decodeLoop_mem_lt (fuel : Nat) :
    ∀ m i k, k ∈ decodeLoop fuel m i → k < i + fuel := by
  induction fuel with
  | zero => intro m i k h; simp [decodeLoop] at h
  | succ f ih =>
    intro m i k h
    simp only [decodeLoop] at h
    by_cases hm : m = 0
    · simp [hm] at h
    · rw [if_neg hm] at h
      rcases List.mem_append.mp h with h1 | h2
      · have : k = i := by
          by_cases hp : m % 2 = 1 <;> simp [hp] at h1
          exact h1
        omega
      · have := ih _ _ _ h2
        omega

theorem decodeLoop_mem (fuel : Nat) :
    ∀ m i k, m < 2 ^ fuel →
      (k ∈ decodeLoop fuel m i ↔ i ≤ k ∧ Nat.testBit m (k - i) = true) := by
  induction fuel with
  | zero =>
    intro m i k hm
    have h0 : m = 0 := by simpa using hm
    subst h0
    simp [decodeLoop]
  | succ f ih =>
    intro m i k hm
    by_cases hm0 : m = 0
    · subst hm0
      simp [decodeLoop_zero_mask]
    · have hdiv : m / 2 < 2 ^ f := by
        rw [Nat.pow_succ] at hm
        omega
      simp only [decodeLoop, if_neg hm0, List.mem_append]
      rw [ih (m / 2) (i + 1) k hdiv]
      rcases lt_trichotomy k i with hlt | rfl | hgt
      · constructor
        · rintro (h1 | h2)
          · by_cases hp : m % 2 = 1 <;> simp [hp] at h1 <;> omega
          · omega
        · rintro ⟨hik, _⟩; omega
      · constructor
        · rintro (h1 | h2)
          · refine ⟨le_refl k, ?_⟩
            have hp : m % 2 = 1 := by
              by_cases hp : m % 2 = 1
              · exact hp
              · simp [hp] at h1
            simp [Nat.testBit_zero, hp]
          · omega
        · rintro ⟨_, hbit⟩
          left
          have hp : m % 2 = 1 := by
            rw [Nat.sub_self, Nat.testBit_zero, decide_eq_true_eq] at hbit
            exact hbit
          simp [hp]
      · have hk : k - i = (k - (i + 1)) + 1 := by omega
        constructor
        · rintro (h1 | h2)
          · by_cases hp : m % 2 = 1 <;> simp [hp] at h1 <;> omega
          · refine ⟨by omega, ?_⟩
            rw [hk, Nat.testBit_add_one]
            exact h2.2
        · rintro ⟨_, hbit⟩
          right
          refine ⟨by omega, ?_⟩
          rw [hk, Nat.testBit_add_one] at hbit
          exact hbit

theorem decodeLoop_two_pow_sub_one (N : Nat) :
    ∀ fuel i, N ≤ fuel → decodeLoop fuel (2 ^ N - 1) i = List.range' i N := by
  induction N with
  | zero => intro fuel i _; simp [decodeLoop_zero_mask]
  | succ n ih =>
    intro fuel i h
    obtain ⟨f, rfl⟩ : ∃ f, fuel = f + 1 := ⟨fuel - 1, by omega⟩
    have hA : 1 ≤ 2 ^ n := Nat.one_le_two_pow
    have hpow : 2 ^ (n + 1) = 2 ^ n * 2 := Nat.pow_succ 2 n
    have hne : 2 ^ (n + 1) - 1 ≠ 0 := by omega
    have hodd : (2 ^ (n + 1) - 1) % 2 = 1 := by omega
    have hdiv : (2 ^ (n + 1) - 1) / 2 = 2 ^ n - 1 := by omega
    simp only [decodeLoop, if_neg hne, hodd, if_pos rfl, hdiv]
    rw [ih f (i + 1) (by omega)]
    simp [List.range'_succ]

/-- C1: for every device-id set whose members are all at most 63,
`selectGpusByTopology` encodes the set into a 64-bit bitmask without loss —
decoding the encoded mask recovers exactly the input set — and its decode
loop turns the mask with the N lowest bits set (N at most 64, the mask
width) into exactly the ids 0..N-1, scanning set bits low-to-high; through
a native call that returns the input mask, the whole operation returns
exactly the input set. -/
theorem selectGpus_bitmask_roundtrip (gpuIds : List Nat) (hall : ∀ g ∈ gpuIds, g ≤ 63)
    (N : Nat) (hN : N ≤ 64) :
    (∃ mask, encode_gpu_bitmask gpuIds = .ok mask ∧ mask < 2 ^ 64 ∧
      ∀ g, g ∈ decodeLoop 64 mask 0 ↔ g ∈ gpuIds) ∧
    decodeLoop 64 (2 ^ N - 1) 0 = List.range N ∧
    (∀ lib handle numGpus, (∀ h m n, lib.selectGpusResult h m n = (DCGM_ST_OK, m)) →
      ∃ out, (DcgmLibSafe.selectGpusByTopology lib handle gpuIds numGpus).1 = .ok out ∧
        ∀ g, g ∈ out ↔ g ∈ gpuIds) := by
  have hmask : encode_gpu_bitmask gpuIds = .ok (orBits 0 gpuIds) :=
    foldl_encodeStep_ok gpuIds 0 hall
  have hlt : orBits 0 gpuIds < 2 ^ 64 := orBits_lt gpuIds 0 hall (by norm_num)
  have hmem : ∀ g, g ∈ decodeLoop 64 (orBits 0 gpuIds) 0 ↔ g ∈ gpuIds := by
    intro g
    rw [decodeLoop_mem 64 _ 0 g hlt]
    simp [orBits_testBit]
  refine ⟨⟨orBits 0 gpuIds, hmask, hlt, hmem⟩, ?_, ?_⟩
  · rw [decodeLoop_two_pow_sub_one N 64 0 hN, List.range_eq_range']
  · intro lib handle numGpus hecho
    refine ⟨decodeLoop 64 (orBits 0 gpuIds) 0, ?_, hmem⟩
    unfold DcgmLibSafe.selectGpusByTopology
    rw [hmask]
    simp only [hecho, DCGM_ST_OK, if_pos rfl, if_true]
    rw [Nat.mod_eq_of_lt hlt]

/-- Witness for C1 at the concrete set 0, 5, 63 and N = 3. -/
theorem selectGpus_bitmask_roundtrip_w :
    (∀ g ∈ [0, 5, 63], g ≤ 63) ∧ 3 ≤ 64 ∧
    ((∃ mask, encode_gpu_bitmask [0, 5, 63] = .ok mask ∧ mask < 2 ^ 64 ∧
      ∀ g, g ∈ decodeLoop 64 mask 0 ↔ g ∈ [0, 5, 63]) ∧
    decodeLoop 64 (2 ^ 3 - 1) 0 = List.range 3 ∧
    (∀ lib handle numGpus, (∀ h m n, lib.selectGpusResult h m n = (DCGM_ST_OK, m)) →
      ∃ out, (DcgmLibSafe.selectGpusByTopology lib handle [0, 5, 63] numGpus).1 = .ok out ∧
        ∀ g, g ∈ out ↔ g ∈ [0, 5, 63])) :=
  ⟨by decide, by decide, selectGpus_bitmask_roundtrip [0, 5, 63] (by decide) 3 (by decide)⟩

/-- C2: when the input set contains an id above 63, `selectGpusByTopology`
returns the out-of-range error and issues no native call at all. -/
theorem selectGpus_out_of_range (lib : DcgmLib) (handle : Nat) (gpuIds : List Nat)
    (numGpus : Nat) (g : Nat) (hg : g ∈ gpuIds) (h63 : 63 < g) :
    DcgmLibSafe.selectGpusByTopology lib handle gpuIds numGpus =
      (.err ⟨"gpu value out of bounds"⟩, []) := by
  have henc : encode_gpu_bitmask gpuIds = .err ⟨"gpu value out of bounds"⟩ :=
    foldl_encodeStep_mem_gt gpuIds g hg h63 0
  unfold DcgmLibSafe.selectGpusByTopology
  rw [henc]

/-- Witness for C2 at the concrete set containing 64. -/
theorem selectGpus_out_of_range_w :
    (64 ∈ [64] ∧ 63 < 64) ∧
    DcgmLibSafe.selectGpusByTopology dcgmLibZero 0 [64] 1 =
      (.err ⟨"gpu value out of bounds"⟩, []) :=
  ⟨⟨by decide, by decide⟩,
   selectGpus_out_of_range dcgmLibZero 0 [64] 1 64 (by decide) (by decide)⟩

/-- C10: whatever bitmask the native library returns, a successful
`selectGpusByTopology` result only contains ids at most 63: the decode loop
scans only the 64 bit positions of the returned 64-bit mask. -/
theorem selectGpus_output_le_63 (lib : DcgmLib) (handle : Nat) (gpuIds : List Nat)
    (numGpus : Nat) (out : List Nat) (trace : List NativeCall)
    (h : DcgmLibSafe.selectGpusByTopology lib handle gpuIds numGpus = (.ok out, trace)) :
    ∀ g ∈ out, g ≤ 63 := by
  intro g hgout
  unfold DcgmLibSafe.selectGpusByTopology at h
  cases henc : encode_gpu_bitmask gpuIds with
  | err e =>
    rw [henc] at h
    exact absurd (congrArg Prod.fst h) (by simp)
  | aborted =>
    rw [henc] at h
    exact absurd (congrArg Prod.fst h) (by simp)
  | ok mask =>
    rw [henc] at h
    simp only at h
    by_cases hst : (lib.selectGpusResult handle mask numGpus).1 = DCGM_ST_OK
    · rw [if_pos hst] at h
      have h1 := congrArg Prod.fst h
      simp only at h1
      have h2 : decodeLoop 64 ((lib.selectGpusResult handle mask numGpus).2 % 2 ^ 64) 0 = out := by
        injection h1
      have := decodeLoop_mem_lt 64 _ 0 g (h2 ▸ hgout)
      omega
    · rw [if_neg hst] at h
      exact absurd (congrArg Prod.fst h) (by simp)

set_option maxRecDepth 8192 in
/-- Witness for C10: a successful call through the echo oracle on the set
containing 0 and 5. -/
theorem selectGpus_output_le_63_w :
    DcgmLibSafe.selectGpusByTopology dcgmLibZero 0 [5, 0] 2 =
      (.ok [0, 5], [.dcgmSelectGpusCall 0 33 2]) ∧ ∀ g ∈ [0, 5], g ≤ 63 :=
  ⟨by decide, selectGpus_output_le_63 dcgmLibZero 0 [5, 0] 2 [0, 5]
    [.dcgmSelectGpusCall 0 33 2] (by decide)⟩

/-- C3 counterexample: constructing a Standalone session with an empty
argument list does fail with the validation error, but a native call — the
global `dcgmInit` issued before the argument check — is attempted, so the
trace is not empty. -/
theorem new_standalone_few_args_cex :
    DcgmLibSafe.new (.ok dcgmLibZero) .Standalone [] =
      (.err ⟨"missing dcgm address and / or isUnixSocket"⟩, [.dcgmInitCall]) ∧
    ([NativeCall.dcgmInitCall] : List NativeCall) ≠ [] := by decide

/-- C3 amended: provided the library loaded and the global init call
succeeds, a Standalone construction with fewer than two arguments fails
with the validation error, and the only native call attempted is the
global init — in particular no connect call reaches the native library. -/
theorem new_standalone_few_args (lib : DcgmLib) (args : List String)
    (hinit : lib.initResult = DCGM_ST_OK) (hlen : args.length < 2) :
    DcgmLibSafe.new (.ok lib) .Standalone args =
      (.err ⟨"missing dcgm address and / or isUnixSocket"⟩, [.dcgmInitCall]) := by
  unfold DcgmLibSafe.new DcgmLibSafe.initCall status_to_result DcgmLibSafe.connectToDcgm
    DcgmLibSafe.connectStandalone
  simp [hinit, hlen]

/-- Witness for C3 (amended) at a concrete one-argument list. -/
theorem new_standalone_few_args_w :
    dcgmLibZero.initResult = DCGM_ST_OK ∧ ([String.mk ['a']].length < 2) ∧
    DcgmLibSafe.new (.ok dcgmLibZero) .Standalone [String.mk ['a']] =
      (.err ⟨"missing dcgm address and / or isUnixSocket"⟩, [.dcgmInitCall]) :=
  ⟨by decide, by decide,
   new_standalone_few_args dcgmLibZero [String.mk ['a']] (by decide) (by decide)⟩

/-- C9: in Standalone mode with enough arguments, an argument that fails to
parse as the expected unsigned integer makes the construction abort (the
source `unwrap`s the parse result), rather than return a configuration
error: first with a non-numeric socket-type flag, then with a non-numeric
persistence flag. -/
theorem new_standalone_parse_failure_aborts :
    DcgmLibSafe.new (.ok dcgmLibZero) .Standalone ["localhost:5555", "abc"] =
      (.aborted, [.dcgmInitCall]) ∧
    DcgmLibSafe.new (.ok dcgmLibZero) .Standalone ["localhost:5555", "0", "xyz"] =
      (.aborted, [.dcgmInitCall]) := by decide

/-- C5: `shutdown` dispatches exactly on the mode fixed at construction.
An Embedded-mode session calls stop-embedded and then, once that
succeeded, global shutdown, and succeeds exactly when both calls do; a
Standalone-mode session calls disconnect and then global shutdown the same
way; a StartHostengine-mode session always fails with the "not
implemented" error and issues no native call. -/
theorem shutdown_mode_dispatch (lib : DcgmLib) (h : Nat) :
    ((DcgmLibSafe.shutdown lib ⟨.Embedded, h⟩).2 =
      if lib.stopEmbeddedResult h = DCGM_ST_OK
      then [.dcgmStopEmbeddedCall h, .dcgmShutdownCall]
      else [.dcgmStopEmbeddedCall h]) ∧
    ((DcgmLibSafe.shutdown lib ⟨.Embedded, h⟩).1 = .ok () ↔
      lib.stopEmbeddedResult h = DCGM_ST_OK ∧ lib.shutdownResult = DCGM_ST_OK) ∧
    ((DcgmLibSafe.shutdown lib ⟨.Standalone, h⟩).2 =
      if lib.disconnectResult h = DCGM_ST_OK
      then [.dcgmDisconnectCall h, .dcgmShutdownCall]
      else [.dcgmDisconnectCall h]) ∧
    ((DcgmLibSafe.shutdown lib ⟨.Standalone, h⟩).1 = .ok () ↔
      lib.disconnectResult h = DCGM_ST_OK ∧ lib.shutdownResult = DCGM_ST_OK) ∧
    DcgmLibSafe.shutdown lib ⟨.StartHostengine, h⟩ = (.err ⟨"Not implemented"⟩, []) := by
  unfold DcgmLibSafe.shutdown DcgmLibSafe.stopEmbedded DcgmLibSafe.disconnectStandalone
    status_to_result
  refine ⟨?_, ?_, ?_, ?_, rfl⟩
  · by_cases h1 : lib.stopEmbeddedResult h = DCGM_ST_OK <;> simp [h1]
  · by_cases h1 : lib.stopEmbeddedResult h = DCGM_ST_OK <;>
      by_cases h2 : lib.shutdownResult = DCGM_ST_OK <;> simp [h1, h2]
  · by_cases h1 : lib.disconnectResult h = DCGM_ST_OK <;> simp [h1]
  · by_cases h1 : lib.disconnectResult h = DCGM_ST_OK <;>
      by_cases h2 : lib.shutdownResult = DCGM_ST_OK <;> simp [h1, h2]

/-- C8: `watchFields` registers the watch first; only if registration
succeeds does it immediately issue the synchronous update-all-fields call
(the trace shows the update call exactly in that case); the operation
returns ok exactly when both calls succeed, and otherwise returns the
error built from whichever of the two statuses failed. -/
theorem watchFields_register_then_update (lib : DcgmLib)
    (handle fieldGroupId groupId : Nat) (updateFreq : Int) (maxKeepAge : Nat)
    (maxKeepSamples : Int) :
    ((DcgmLibSafe.watchFields lib handle fieldGroupId groupId updateFreq maxKeepAge
        maxKeepSamples).2 =
      if lib.watchFieldsResult handle groupId fieldGroupId updateFreq maxKeepAge
          maxKeepSamples = DCGM_ST_OK
      then [.dcgmWatchFieldsCall handle groupId fieldGroupId updateFreq maxKeepAge
              maxKeepSamples, .dcgmUpdateAllFieldsCall handle 1]
      else [.dcgmWatchFieldsCall handle groupId fieldGroupId updateFreq maxKeepAge
              maxKeepSamples]) ∧
    ((DcgmLibSafe.watchFields lib handle fieldGroupId groupId updateFreq maxKeepAge
        maxKeepSamples).1 = .ok () ↔
      lib.watchFieldsResult handle groupId fieldGroupId updateFreq maxKeepAge
          maxKeepSamples = DCGM_ST_OK ∧
      lib.updateAllFieldsResult handle 1 = DCGM_ST_OK) ∧
    (lib.watchFieldsResult handle groupId fieldGroupId updateFreq maxKeepAge
        maxKeepSamples ≠ DCGM_ST_OK →
      (DcgmLibSafe.watchFields lib handle fieldGroupId groupId updateFreq maxKeepAge
          maxKeepSamples).1 =
        .err ⟨get_error_msg lib (lib.watchFieldsResult handle groupId fieldGroupId
          updateFreq maxKeepAge maxKeepSamples)⟩) ∧
    (lib.watchFieldsResult handle groupId fieldGroupId updateFreq maxKeepAge
        maxKeepSamples = DCGM_ST_OK →
      lib.updateAllFieldsResult handle 1 ≠ DCGM_ST_OK →
      (DcgmLibSafe.watchFields lib handle fieldGroupId groupId updateFreq maxKeepAge
          maxKeepSamples).1 =
        .err ⟨get_error_msg lib (lib.updateAllFieldsResult handle 1)⟩) := by
  unfold DcgmLibSafe.watchFields DcgmLibSafe.updateAllFields status_to_result
  refine ⟨?_, ?_, ?_, ?_⟩
  · by_cases h1 : lib.watchFieldsResult handle groupId fieldGroupId updateFreq maxKeepAge
        maxKeepSamples = DCGM_ST_OK <;> simp [h1]
  · by_cases h1 : lib.watchFieldsResult handle groupId fieldGroupId updateFreq maxKeepAge
        maxKeepSamples = DCGM_ST_OK <;>
      by_cases h2 : lib.updateAllFieldsResult handle 1 = DCGM_ST_OK <;> simp [h1, h2]
  · intro h1
    simp [h1]
  · intro h1 h2
    simp [h1, h2]

/-- Witness for C8: the all-success oracle returns ok, the failing-watch
oracle returns the watch error and issues no update call. -/
theorem watchFields_register_then_update_w :
    (DcgmLibSafe.watchFields dcgmLibZero 1 2 3 1000 0 10).1 = .ok () ∧
    (DcgmLibSafe.watchFields dcgmLibWatchFail 1 2 3 1000 0 10).1 =
      .err ⟨get_error_msg dcgmLibWatchFail 5⟩ ∧
    (DcgmLibSafe.watchFields dcgmLibWatchFail 1 2 3 1000 0 10).2 =
      [.dcgmWatchFieldsCall 1 3 2 1000 0 10] := by
  refine ⟨?_, ?_, ?_⟩
  · exact ((watchFields_register_then_update dcgmLibZero 1 2 3 1000 0 10).2.1).mpr
      ⟨rfl, rfl⟩
  · exact (watchFields_register_then_update dcgmLibWatchFail 1 2 3 1000 0 10).2.2.1
      (by decide)
  · exact ((watchFields_register_then_update dcgmLibWatchFail 1 2 3 1000 0 10).1).trans
      (by decide)

/-- C7: the error-translation pattern maps the success status to ok and any
other status to an error carrying the native library's message string for
that code, with the generic fallback message exactly when the library
returns no string. -/
theorem native_status_translation (lib : DcgmLib) (code : Int) :
    (code = DCGM_ST_OK → status_to_result lib code = .ok ()) ∧
    (code ≠ DCGM_ST_OK → status_to_result lib code = .err ⟨get_error_msg lib code⟩) ∧
    (∀ s, lib.errorString code = some s → get_error_msg lib code = s) ∧
    (lib.errorString code = none →
      get_error_msg lib code = "Unknown DCGM error " ++ toString code) := by
  refine ⟨fun h => by simp [status_to_result, h],
    fun h => by simp [status_to_result, h],
    fun s hs => by simp [get_error_msg, hs],
    fun h => by simp [get_error_msg, h]⟩

/-- Witness for C7 at the concrete codes 0, 5 (with a native string) and 7
(without one). -/
theorem native_status_translation_w :
    status_to_result dcgmLibMsg 0 = .ok () ∧
    status_to_result dcgmLibMsg 5 = .err ⟨"boom"⟩ ∧
    get_error_msg dcgmLibMsg 7 = "Unknown DCGM error 7" := by
  refine ⟨(native_status_translation dcgmLibMsg 0).1 rfl, ?_, ?_⟩
  · have h2 := (native_status_translation dcgmLibMsg 5).2.1 (by decide)
    have h3 := (native_status_translation dcgmLibMsg 5).2.2.1 "boom" (by decide)
    rw [h3] at h2
    exact h2
  · exact ((native_status_translation dcgmLibMsg 7).2.2.2 (by decide)).trans (by decide)

/-- C4 counterexample: with the topology call succeeding (status 0,
peer count 1) but the follow-up attributes call failing, `getDeviceTopology`
aborts (the source `unwrap`s the attributes result) instead of returning a
sequence of the reported length. -/
theorem getDeviceTopology_attr_failure_aborts :
    DcgmLibSafe.getDeviceTopology dcgmLibAttrFail 1 0 =
      (.aborted, [.dcgmGetDeviceTopologyCall 1 0, .dcgmGetDeviceAttributesCall 1 0]) := by
  decide

/-- C4 amended: `getDeviceTopology` returns a successful empty sequence
(not an error) on the "not supported" status; on the success status —
provided the follow-up attributes fetch also succeeds and the reported
peer count fits the fixed native array — it returns a sequence whose
length equals the reported peer-GPU count. -/
theorem getDeviceTopology_status_cases (lib : DcgmLib) (handle gpuId : Nat) :
    ((lib.getDeviceTopologyResult handle gpuId).1 = DCGM_ST_NOT_SUPPORTED →
      DcgmLibSafe.getDeviceTopology lib handle gpuId =
        (.ok [], [.dcgmGetDeviceTopologyCall handle gpuId])) ∧
    ((lib.getDeviceTopologyResult handle gpuId).1 = DCGM_ST_OK →
      (lib.getDeviceAttributesResult handle gpuId).1 = DCGM_ST_OK →
      (lib.getDeviceTopologyResult handle gpuId).2.numGpus ≤ DCGM_MAX_NUM_DEVICES →
      ∃ links, (DcgmLibSafe.getDeviceTopology lib handle gpuId).1 = .ok links ∧
        links.length = (lib.getDeviceTopologyResult handle gpuId).2.numGpus) := by
  constructor
  · intro hns
    have hne : DCGM_ST_NOT_SUPPORTED ≠ DCGM_ST_OK := by decide
    unfold DcgmLibSafe.getDeviceTopology
    simp [hns, hne]
  · intro hok hattr hnum
    unfold DcgmLibSafe.getDeviceTopology DcgmLibSafe.getDeviceAttributes
    simp [hok, hattr, hnum]

/-- Witness for C4 (amended): the "not supported" oracle yields the empty
sequence, and the two-peer oracle yields a sequence of length two. -/
theorem getDeviceTopology_status_cases_w :
    DcgmLibSafe.getDeviceTopology dcgmLibTopoNS 3 1 =
      (.ok [], [.dcgmGetDeviceTopologyCall 3 1]) ∧
    ∃ links, (DcgmLibSafe.getDeviceTopology dcgmLibTopoOk 3 1).1 = .ok links ∧
      links.length = (dcgmLibTopoOk.getDeviceTopologyResult 3 1).2.numGpus :=
  ⟨(getDeviceTopology_status_cases dcgmLibTopoNS 3 1).1 (by decide),
   (getDeviceTopology_status_cases dcgmLibTopoOk 3 1).2 (by decide) (by decide) (by decide)⟩

/-- C6 counterexample: the raw value 3 has set bits only in the low byte,
yet the PCIe label function returns the catch-all "ERR", which is none of
the defined class labels; and the raw value 256 has set bits only above the
low byte, yet the PCIe label function returns "N/A" (the uninitialized
label), not its "ERR" sentinel. -/
theorem p2p_connectivity_labels_cex :
    3 < 256 ∧ p2p_pcie_connectivity_to_string 3 = "ERR" ∧
    "ERR" ∉ ["N/A", "PSB", "PIX", "PXB", "PHB", "NODE", "SYS"] ∧
    (256 : Nat) % 256 = 0 ∧ p2p_pcie_connectivity_to_string 256 = "N/A" ∧
    "N/A" ≠ "ERR" := by decide

set_option maxRecDepth 40000 in
/-- C6 amended: every defined PCIe class constant (all in the low byte)
gets its defined PCIe label while the NVLink function returns its "ERR"
sentinel on it; every defined NVLink class constant (all above the low
byte) gets its defined NVLink label while the PCIe function returns "N/A"
(the uninitialized label); and a low-byte value that matches no defined
PCIe constant gets "ERR" from both functions. -/
theorem p2p_connectivity_labels :
    (∀ p ∈ pcieClasses, p.1 < 256 ∧ p2p_pcie_connectivity_to_string p.1 = p.2 ∧
      p2p_nvlink_connectivity_to_string p.1 = "ERR") ∧
    (∀ p ∈ nvlinkClasses, p.1 % 256 = 0 ∧ p.1 ≠ 0 ∧
      p2p_nvlink_connectivity_to_string p.1 = p.2 ∧
      p2p_pcie_connectivity_to_string p.1 = "N/A") ∧
    (∀ v < 256, v ∉ pcieClasses.map Prod.fst →
      p2p_pcie_connectivity_to_string v = "ERR" ∧
      p2p_nvlink_connectivity_to_string v = "ERR") := by decide

/-- Witness for C6 (amended) at the board constant, the first NVLink
constant, and the undefined low-byte value 3. -/
theorem p2p_connectivity_labels_w :
    (DCGM_TOPOLOGY_BOARD < 256 ∧
      p2p_pcie_connectivity_to_string DCGM_TOPOLOGY_BOARD = "PSB" ∧
      p2p_nvlink_connectivity_to_string DCGM_TOPOLOGY_BOARD = "ERR") ∧
    (DCGM_TOPOLOGY_NVLINK 1 % 256 = 0 ∧ DCGM_TOPOLOGY_NVLINK 1 ≠ 0 ∧
      p2p_nvlink_connectivity_to_string (DCGM_TOPOLOGY_NVLINK 1) = "NV1" ∧
      p2p_pcie_connectivity_to_string (DCGM_TOPOLOGY_NVLINK 1) = "N/A") ∧
    (p2p_pcie_connectivity_to_string 3 = "ERR" ∧
      p2p_nvlink_connectivity_to_string 3 = "ERR") :=
  ⟨p2p_connectivity_labels.1 (DCGM_TOPOLOGY_BOARD, "PSB") (by decide),
   p2p_connectivity_labels.2.1 (DCGM_TOPOLOGY_NVLINK 1, "NV1") (by decide),
   p2p_connectivity_labels.2.2 3 (by decide) (by decide)⟩
